import Mathlib

/-!
# Shallow embedding of `YConfParser.hpp` (ydagne/YConfigParser)

Strings (`std::string`) are modelled as `List Char`.  The parser state of
`parseFile` (full dotted path, the two parallel stacks, and the resulting
map) is modelled explicitly; `std::vector` stacks with `push_back`/`back`/
`pop_back` become Lean lists whose head is the top of the stack.

Floating point: `std::stof`'s result is modelled exactly as the decimal
value `m * 10 ^ e` it parses (a pair `(m, e)`); IEEE-754 rounding and the
out-of-range exception are abstracted, and the hexadecimal / `inf` / `nan`
forms of `strtof` are not modelled.  No claim in this development depends
on float magnitudes or rounding, only on parse success and classification.

The two places where `parseFile` can touch a `std::vector` out of bounds
(reading `paddingHistory.back()` after popping the last frame, and the
`size_t` wrap-around in `fullParamName.size() - paramLengths.back()`) are
modelled faithfully: the wrap-around uses arithmetic modulo `2 ^ 64`, and
the value produced by the out-of-bounds `back()` read is supplied by an
explicit `junk` oracle.  Instrumentation fields (`ubEmptyBack`,
`ubUnderflow`, `events`) record that these events happened and the sequence
of attempted map insertions; they never influence the parse itself.
-/

/-- `config_struct_::type_` from `YConfParser.hpp` (lines 92-98). -/
inductive Ytype where
  | NO_VAL
  | STRING
  | BOOLEAN
  | FLOAT
  | INTEGER
deriving DecidableEq, Repr

/-- Exact decimal value `m * 10 ^ e` standing in for the `float` parsed by
`std::stof` (IEEE-754 rounding abstracted). -/
abbrev DecFloat := Int × Int

/-- `config_struct` from `YConfParser.hpp` (lines 69-106): the typed value of
one configuration entry.  Scalars are length-1 vectors, arrays longer. -/
structure config_struct where
  type : Ytype
  rawString : List Char
  stringVal : List (List Char)
  boolVal : List Bool
  floatVal : List DecFloat
  intVal : List Int
deriving DecidableEq, Repr

/-- The default-constructed `config_struct` (constructor at lines 71-75). -/
def emptyConfig : config_struct :=
  { type := Ytype.NO_VAL, rawString := [], stringVal := [], boolVal := [],
    floatVal := [], intVal := [] }

/-- `trimmLeadingSpaces` (lines 139-150): drop the leading run of `' '`. -/
def trimmLeadingSpaces (s : List Char) : List Char :=
  s.dropWhile (fun c => c = ' ')

/-- `trimmLeadingTabs` (lines 158-169): drop the leading run of tabs. -/
def trimmLeadingTabs (s : List Char) : List Char :=
  s.dropWhile (fun c => c = '\t')

/-- `trimmTrailingSpaces` (lines 178-189): drop the trailing run of `' '`. -/
def trimmTrailingSpaces (s : List Char) : List Char :=
  (s.reverse.dropWhile (fun c => c = ' ')).reverse

/-- `trimmWhiteSpaces` (lines 197-200). -/
def trimmWhiteSpaces (s : List Char) : List Char :=
  trimmTrailingSpaces (trimmLeadingSpaces s)

/-- `w_string[0]`: on an empty `std::string`, `operator[](0)` returns the
null character (well defined since C++11). -/
def headOrNull (s : List Char) : Char :=
  s.headD (Char.ofNat 0)

/-- `pat` is a prefix of `s` (helper for `hasSubstr`). -/
def startsWith : List Char → List Char → Bool
  | [], _ => true
  | _ :: _, [] => false
  | p :: ps, c :: cs => p = c && startsWith ps cs

/-- `s.find(pat) != std::string::npos`: `pat` occurs as a contiguous
substring of `s`. -/
def hasSubstr : List Char → List Char → Bool
  | [], pat => startsWith pat []
  | s@(_ :: rest), pat => startsWith pat s || hasSubstr rest pat

/-- `s.find(c) != std::string::npos` for a single character. -/
def containsChar (s : List Char) (c : Char) : Bool :=
  s.any (fun d => d = c)

/-- Value of a run of decimal digits (most significant first). -/
def digitsToNat (ds : List Char) : Nat :=
  ds.foldl (fun n c => 10 * n + (c.toNat - '0'.toNat)) 0

/-- `std::stof` on the decimal grammar (skip leading blanks, optional sign,
digits, optional fraction, optional exponent), returning the exact decimal
value parsed, or `none` when no conversion is possible
(`std::invalid_argument`).  See the abstraction notes in the header. -/
def stofOpt (s : List Char) : Option DecFloat :=
  let s1 := s.dropWhile (fun c => c = ' ' ∨ c = '\t')
  let signAndRest : Int × List Char :=
    match s1 with
    | '-' :: r => (-1, r)
    | '+' :: r => (1, r)
    | r => (1, r)
  let sgn := signAndRest.1
  let s2 := signAndRest.2
  let ip := s2.takeWhile Char.isDigit
  let s3 := s2.drop ip.length
  let fracAndRest : List Char × List Char :=
    match s3 with
    | '.' :: r => (r.takeWhile Char.isDigit, r.drop (r.takeWhile Char.isDigit).length)
    | r => ([], r)
  let fp := fracAndRest.1
  let s4 := fracAndRest.2
  if ip.isEmpty && fp.isEmpty then none
  else
    let mant : Int := sgn * (digitsToNat (ip ++ fp) : Int)
    let expDigits : List Char → Int → Int := fun r2 esgn =>
      if (r2.takeWhile Char.isDigit).isEmpty then 0
      else esgn * (digitsToNat (r2.takeWhile Char.isDigit) : Int)
    let ex : Int :=
      match s4 with
      | c :: r =>
        if c = 'e' ∨ c = 'E' then
          match r with
          | '-' :: r2 => expDigits r2 (-1)
          | '+' :: r2 => expDigits r2 1
          | r2 => expDigits r2 1
        else 0
      | [] => 0
    some (mant, ex - (fp.length : Int))

/-- `std::stoi` (base 10 `strtol` restricted to 32-bit `int`): skip leading
blanks, optional sign, then a non-empty run of digits; `none` models the
`std::invalid_argument` / `std::out_of_range` exceptions. -/
def stoiOpt (s : List Char) : Option Int :=
  let s1 := s.dropWhile (fun c => c = ' ' ∨ c = '\t')
  let signAndRest : Int × List Char :=
    match s1 with
    | '-' :: r => (-1, r)
    | '+' :: r => (1, r)
    | r => (1, r)
  let ds := signAndRest.2.takeWhile Char.isDigit
  if ds.isEmpty then none
  else
    let v : Int := signAndRest.1 * (digitsToNat ds : Int)
    if v < -(2 ^ 31) ∨ (2 ^ 31 - 1 : Int) < v then none
    else some v

/-- `parseAsString` (lines 209-226): succeeds exactly when the token starts
with `"`, has length `> 2` and ends with `"`; returns the interior. -/
def parseAsString (s : List Char) : Option (List Char) :=
  if headOrNull s = '"' then
    if 2 < s.length then
      if s.getLast? = some '"' then some ((s.drop 1).dropLast)
      else none
    else none
  else none

/-- The pattern searched for by the boolean-true branch. -/
def TRUEpat : List Char := ['T', 'R', 'U', 'E']

/-- The pattern searched for by the boolean-false branch. -/
def FALSEpat : List Char := ['F', 'A', 'L', 'S', 'E']

/-- `parseAsBoolean` (lines 236-254): substring search, `TRUE` before
`FALSE`. -/
def parseAsBoolean (s : List Char) : Option Bool :=
  if hasSubstr s TRUEpat then some true
  else if hasSubstr s FALSEpat then some false
  else none

/-- `parseAsFloat` (lines 263-278): the conversion is attempted only when
the token contains a `.`. -/
def parseAsFloat (s : List Char) : Option DecFloat :=
  if containsChar s '.' then stofOpt s else none

/-- `parseAsInteger` (lines 287-302): the conversion is attempted only when
the token contains a `.` — the same gate as the float parser. -/
def parseAsInteger (s : List Char) : Option Int :=
  if containsChar s '.' then stoiOpt s else none

/-- Accumulator of the array-parsing loop in `parseLine` (lines 403-471).
`overall` is `pvPair.second.type` as updated inside the loop, `elemType`
is the local `elementType`, and `accS`/`accB`/`accF`/`accI` are the
contents of the four scratch vectors *without* their trailing
default-constructed slot (the `pop_back` of lines 479-491 removes exactly
that slot). -/
structure ArrAcc where
  overall : Ytype
  elemType : Ytype
  accS : List (List Char)
  accB : List Bool
  accF : List DecFloat
  accI : List Int
deriving DecidableEq, Repr

/-- The initial accumulator at loop entry (lines 388-412). -/
def initialArrAcc : ArrAcc :=
  { overall := Ytype.NO_VAL, elemType := Ytype.NO_VAL,
    accS := [], accB := [], accF := [], accI := [] }

/-- The classification cascade applied to one trimmed array element
(lines 421-448): string, boolean, float, integer, in this order; `none`
is the `Unknown type` branch. -/
def classifyElement (element : List Char) (a : ArrAcc) : Option (Ytype × ArrAcc) :=
  match parseAsString element with
  | some sv => some (Ytype.STRING, { a with accS := a.accS ++ [sv] })
  | none =>
    match parseAsBoolean element with
    | some b => some (Ytype.BOOLEAN, { a with accB := a.accB ++ [b] })
    | none =>
      match parseAsFloat element with
      | some f => some (Ytype.FLOAT, { a with accF := a.accF ++ [f] })
      | none =>
        match parseAsInteger element with
        | some i => some (Ytype.INTEGER, { a with accI := a.accI ++ [i] })
        | none => none

/-- The `while(true)` element loop of lines 414-471.  The `fuel` argument
only makes the recursion structural: every pass either stops or recurses
on a strictly shorter `elements`, so `elements.length + 1` units of fuel
are always sufficient and the fuel-exhausted branch is never reached from
`classifyValue`. -/
def arrayLoop : Nat → List Char → ArrAcc → ArrAcc
  | 0, _, a => a
  | fuel + 1, elements, a =>
    let idx? := elements.findIdx? (fun c => c = ',')
    let element :=
      trimmWhiteSpaces (match idx? with
        | none => elements
        | some n => elements.take n)
    match classifyElement element a with
    | none => a
    | some (et, a1) =>
      let a2 : ArrAcc :=
        { a1 with elemType := et,
                  overall := if a1.overall = Ytype.NO_VAL then et else a1.overall }
      if a1.overall ≠ Ytype.NO_VAL ∧ a1.overall ≠ et then a2
      else
        match idx? with
        | none => a2
        | some n =>
          if elements.length ≤ n + 1 then a2
          else arrayLoop fuel (trimmWhiteSpaces (elements.drop (n + 1))) a2

/-- The copy-out step of lines 473-495: the result type is the `overall`
type fixed in the loop, but the `switch` that copies a scratch vector
dispatches on `elemType` — the type of the *last* classified element. -/
def arrayFinish (base : config_struct) (a : ArrAcc) : config_struct :=
  let c1 := { base with type := a.overall }
  match a.elemType with
  | Ytype.NO_VAL => c1
  | Ytype.STRING => { c1 with stringVal := a.accS }
  | Ytype.BOOLEAN => { c1 with boolVal := a.accB }
  | Ytype.FLOAT => { c1 with floatVal := a.accF }
  | Ytype.INTEGER => { c1 with intVal := a.accI }

/-- A `config_struct` whose classification has not (yet) succeeded:
type `NO_VAL`, raw string recorded (line 386). -/
def mkBase (v : List Char) : config_struct :=
  { emptyConfig with rawString := v }

/-- The value-classification cascade of `parseLine` (lines 388-517),
applied to the trimmed value token: empty, string, bracketed array,
boolean, float, integer, otherwise `NO_VAL`. -/
def classifyValue (v : List Char) : config_struct :=
  if v = [] then mkBase v
  else
    match parseAsString v with
    | some sv => { mkBase v with type := Ytype.STRING, stringVal := [sv] }
    | none =>
      if headOrNull v = '[' ∧ v.getLast? = some ']' then
        if v.length < 3 then mkBase v
        else
          let elements := (v.drop 1).dropLast
          arrayFinish (mkBase v) (arrayLoop (elements.length + 1) elements initialArrAcc)
      else
        match parseAsBoolean v with
        | some b => { mkBase v with type := Ytype.BOOLEAN, boolVal := [b] }
        | none =>
          match parseAsFloat v with
          | some f => { mkBase v with type := Ytype.FLOAT, floatVal := [f] }
          | none =>
            match parseAsInteger v with
            | some i => { mkBase v with type := Ytype.INTEGER, intVal := [i] }
            | none => mkBase v

/-- Result of `parseLine` (lines 323-518): the out-parameter `w_padding`
together with the name/value pair. -/
structure ParsedLine where
  padding : Nat
  name : List Char
  cfg : config_struct
deriving DecidableEq, Repr

/-- `parseLine` (lines 323-518).  Rejected lines return an empty name and
a `NO_VAL` value.  Note the asymmetry of the indentation checks: only a
space remaining *after* stripping leading spaces then leading tabs (a
tab-before-space mix) is rejected at line 348; a space-then-tab mix only
triggers the warning of line 356 and parsing continues. -/
def parseLine (line : List Char) : ParsedLine :=
  if line = [] then ⟨0, [], emptyConfig⟩
  else
    let trimmed1 := trimmLeadingSpaces line
    let trimmed := trimmLeadingTabs trimmed1
    let padding := line.length - trimmed.length
    if trimmed = [] then ⟨padding, [], emptyConfig⟩
    else if headOrNull trimmed = ' ' then ⟨padding, [], emptyConfig⟩
    else if headOrNull trimmed = '#' then ⟨padding, [], emptyConfig⟩
    else
      match trimmed.findIdx? (fun c => c = ':') with
      | none => ⟨padding, [], emptyConfig⟩
      | some n =>
        if n = 0 then ⟨padding, [], emptyConfig⟩
        else
          let paramString := trimmWhiteSpaces (trimmed.take n)
          let valString :=
            if n < trimmed.length then trimmWhiteSpaces (trimmed.drop (n + 1)) else []
          if paramString = [] then ⟨padding, [], emptyConfig⟩
          else ⟨padding, paramString, classifyValue valString⟩

/-- `a - b` as C++ `size_t` arithmetic: subtraction modulo `2 ^ 64`
(line 570 computes `fullParamName.size() - paramLengths.back()` this way,
which wraps around when the recorded length exceeds the path length). -/
def wrapSub (a b : Nat) : Nat :=
  (((a : Int) - (b : Int)).emod (2 ^ 64)).toNat

/-- State carried by the rewind loop of `parseFile` (lines 567-577),
plus the two instrumentation flags. -/
structure RewindState where
  paddingHistory : List Nat
  paramLengths : List Nat
  fullParamName : List Char
  ubEmptyBack : Bool
  ubUnderflow : Bool
deriving DecidableEq, Repr

/-- The rewind loop `while(paddingHistory.size() > 0)` of lines 567-577.
Each pass pops the top frame, truncates `fullParamName` by the popped
`paramLengths` entry (with the `size_t` wrap-around of `wrapSub`; the
`substr` count is clamped to the string length by `List.take`), and stops
when `currentPadding > paddingHistory.back()`.

When the pop leaves `paddingHistory` empty, line 573 still reads
`paddingHistory.back()` — an out-of-bounds read of an empty
`std::vector`.  The garbage value read is supplied by `junk`, and
`ubEmptyBack` records that the read happened; whichever way the garbage
comparison goes, the loop terminates with the same state, because the
`while` condition fails on the now-empty stack.  `ubUnderflow` records a
wrap-around in the subtraction.  The second pattern (`paramLengths` empty
while `paddingHistory` is not) cannot arise — the two stacks are pushed
and popped in lockstep — and is mapped to the popped state. -/
def rewindLoop (junk currentPadding : Nat) :
    List Nat → List Nat → List Char → Bool → Bool → RewindState
  | [], pl, fp, ubE, ubU => ⟨[], pl, fp, ubE, ubU⟩
  | _ :: ph, [], fp, _, ubU => ⟨ph, [], fp, true, ubU⟩
  | _ :: ph, l :: pl, fp, ubE, ubU =>
    let ubU1 := ubU || decide (fp.length < l)
    let fp1 := fp.take (wrapSub fp.length l)
    match ph with
    | [] =>
      if currentPadding > junk then ⟨ph, pl, fp1, true, ubU1⟩
      else rewindLoop junk currentPadding ph pl fp1 true ubU1
    | q :: _ =>
      if currentPadding > q then ⟨ph, pl, fp1, ubE, ubU1⟩
      else rewindLoop junk currentPadding ph pl fp1 ubE ubU1

/-- Whole-parse state of `parseFile` (locals of lines 538-543).  `config`
is the `std::unordered_map`, modelled as an association list in insertion
order with unique keys.  `events`, `ubEmptyBack` and `ubUnderflow` are
instrumentation only: `events` is the sequence of `config.insert` calls
attempted (line 588), the flags latch the out-of-bounds events of the
rewind loop.  None of the three influences parsing. -/
structure ParseState where
  fullParamName : List Char
  paramLengths : List Nat
  paddingHistory : List Nat
  config : List (List Char × config_struct)
  events : List (List Char × config_struct)
  ubEmptyBack : Bool
  ubUnderflow : Bool
deriving DecidableEq, Repr

/-- The state at the start of `parseFile`. -/
def initState : ParseState :=
  ⟨[], [], [], [], [], false, false⟩

/-- Lines 562-579: rewind only when the stack is non-empty and the new
padding is not deeper than the top of the stack. -/
def applyRewind (junk currentPadding : Nat) (st : ParseState) : ParseState :=
  match st.paddingHistory with
  | [] => st
  | top :: _ =>
    if currentPadding ≤ top then
      let r := rewindLoop junk currentPadding st.paddingHistory st.paramLengths
        st.fullParamName st.ubEmptyBack st.ubUnderflow
      { st with paddingHistory := r.paddingHistory, paramLengths := r.paramLengths,
                fullParamName := r.fullParamName, ubEmptyBack := r.ubEmptyBack,
                ubUnderflow := r.ubUnderflow }
    else st

/-- First occurrence of key `k` in the association list (the lookup
offered by the `configList` map). -/
def lookupConfig : List (List Char × config_struct) → List Char → Option config_struct
  | [], _ => none
  | e :: m, k => if e.1 = k then some e.2 else lookupConfig m k

/-- `config.insert({k, v})` on a `std::unordered_map` (line 588): a no-op
when the key is already present — it does *not* overwrite. -/
def insertNoOverwrite (m : List (List Char × config_struct)) (k : List Char)
    (v : config_struct) : List (List Char × config_struct) :=
  if (lookupConfig m k).isSome then m else m ++ [(k, v)]

/-- One iteration of the `while(getline(...))` loop of lines 553-590:
parse the line; skip it when the name is empty *or* the value classified
`NO_VAL` (line 557 — so a valueless parent line never pushes a frame);
otherwise rewind if needed, push the new frame, extend the dotted path,
and insert when the value is not `NO_VAL` (line 586, always true here). -/
def parseStep (junk : Nat) (st : ParseState) (line : List Char) : ParseState :=
  let r := parseLine line
  if r.name = [] ∨ r.cfg.type = Ytype.NO_VAL then st
  else
    let st1 := applyRewind junk r.padding st
    let fp := if st1.fullParamName = [] then r.name
              else st1.fullParamName ++ '.' :: r.name
    let st2 : ParseState :=
      { st1 with paddingHistory := r.padding :: st1.paddingHistory,
                 paramLengths := (1 + r.name.length) :: st1.paramLengths,
                 fullParamName := fp }
    if r.cfg.type = Ytype.NO_VAL then st2
    else { st2 with config := insertNoOverwrite st2.config fp r.cfg,
                    events := st2.events ++ [(fp, r.cfg)] }

/-- Fold `parseStep` over the lines of the document; the index `i` selects
the `junk` oracle value used if line `i`'s rewind performs the
out-of-bounds `back()` read. -/
def parseLines (junk : Nat → Nat) : Nat → ParseState → List (List Char) → ParseState
  | _, st, [] => st
  | i, st, line :: rest => parseLines junk (i + 1) (parseStep (junk i) st line) rest

/-- `parseFile` (lines 534-600) on an already-delivered sequence of lines
(file I/O is outside the model): the final parse state. -/
def parseDocument (junk : Nat → Nat) (lines : List (List Char)) : ParseState :=
  parseLines junk 0 initState lines

/-- A fixed choice of garbage values for the out-of-bounds reads, used to
evaluate concrete documents (`parseDocument` is proved independent of this
choice). -/
def junkZero : Nat → Nat := fun _ => 0

/-! ## Helper lemmas -/

/-- The rewind loop does not depend on the garbage value modelling the
out-of-bounds `back()` read: when that read happens the stack has just
become empty, so the loop terminates with the same state whichever way
the garbage comparison goes. -/
theorem rewindLoop_junk_irrel (j1 j2 currentPadding : Nat) :
    ∀ (ph pl : List Nat) (fp : List Char) (ubE ubU : Bool),
      rewindLoop j1 currentPadding ph pl fp ubE ubU =
      rewindLoop j2 currentPadding ph pl fp ubE ubU := by
  intro ph
  induction ph with
  | nil => intro pl fp ubE ubU; rfl
  | cons top ph ih =>
    intro pl fp ubE ubU
    cases pl with
    | nil => rfl
    | cons l pl =>
      cases ph with
      | nil => simp only [rewindLoop]; split <;> split <;> rfl
      | cons q ph' =>
        simp only [rewindLoop]
        split
        · rfl
        · exact ih _ _ _ _

/-- `applyRewind` is likewise independent of the garbage value. -/
theorem applyRewind_junk_irrel (j1 j2 p : Nat) (st : ParseState) :
    applyRewind j1 p st = applyRewind j2 p st := by
  unfold applyRewind
  split
  · rfl
  · rw [rewindLoop_junk_irrel j1 j2]

/-- One parse step is independent of the garbage value. -/
theorem parseStep_junk_irrel (j1 j2 : Nat) (st : ParseState) (line : List Char) :
    parseStep j1 st line = parseStep j2 st line := by
  simp only [parseStep]
  rw [applyRewind_junk_irrel j1 j2]

/-- The whole fold is independent of the garbage oracle. -/
theorem parseLines_junk_irrel (j1 j2 : Nat → Nat) :
    ∀ (lines : List (List Char)) (i : Nat) (st : ParseState),
      parseLines j1 i st lines = parseLines j2 i st lines := by
  intro lines
  induction lines with
  | nil => intro i st; rfl
  | cons line rest ih =>
    intro i st
    simp only [parseLines]
    rw [parseStep_junk_irrel (j1 i) (j2 i)]
    exact ih _ _

/-- Rewinding never touches the accumulated map. -/
theorem applyRewind_config (j p : Nat) (st : ParseState) :
    (applyRewind j p st).config = st.config := by
  unfold applyRewind
  split
  · rfl
  · split <;> rfl

/-- Rewinding never touches the recorded insertion events. -/
theorem applyRewind_events (j p : Nat) (st : ParseState) :
    (applyRewind j p st).events = st.events := by
  unfold applyRewind
  split
  · rfl
  · split <;> rfl

/-- Appending a fresh entry at the back is only seen by a lookup when no
earlier entry has the key. -/
theorem lookupConfig_append_single (m : List (List Char × config_struct))
    (k k' : List Char) (v : config_struct) :
    lookupConfig (m ++ [(k', v)]) k =
      match lookupConfig m k with
      | some x => some x
      | none => if k' = k then some v else none := by
  induction m with
  | nil => simp [lookupConfig]
  | cons e m ih =>
    by_cases h : e.1 = k <;> simp [lookupConfig, h, ih]

/-- A key already present blocks a later `lookupConfig` from seeing a
freshly inserted value at the same key. -/
theorem lookupConfig_insertNoOverwrite (m : List (List Char × config_struct))
    (k k' : List Char) (v : config_struct) :
    lookupConfig (insertNoOverwrite m k' v) k =
      match lookupConfig m k with
      | some x => some x
      | none => if k' = k then some v else none := by
  unfold insertNoOverwrite
  by_cases hk : (lookupConfig m k').isSome
  · rw [if_pos hk]
    cases hmk : lookupConfig m k with
    | some x => rfl
    | none =>
      by_cases hkk : k' = k
      · subst hkk
        rw [hmk] at hk
        simp at hk
      · simp [hkk]
  · rw [if_neg hk]
    exact lookupConfig_append_single m k k' v

/-- One parse step keeps the map in sync with the recorded sequence of
insertion attempts: lookups in the map agree with first-match lookups in
the event list. -/
theorem parseStep_lookup_inv (j : Nat) (st : ParseState) (line : List Char)
    (h : ∀ k, lookupConfig st.config k = lookupConfig st.events k) :
    ∀ k, lookupConfig (parseStep j st line).config k =
      lookupConfig (parseStep j st line).events k := by
  intro k
  simp only [parseStep]
  split
  · exact h k
  · split
    · rw [applyRewind_config, applyRewind_events]
      exact h k
    · rw [lookupConfig_insertNoOverwrite, applyRewind_config,
        lookupConfig_append_single, applyRewind_events, h k]

/-- The fold preserves the map/event-list agreement. -/
theorem parseLines_lookup_inv (j : Nat → Nat) :
    ∀ (lines : List (List Char)) (i : Nat) (st : ParseState),
      (∀ k, lookupConfig st.config k = lookupConfig st.events k) →
      ∀ k, lookupConfig (parseLines j i st lines).config k =
        lookupConfig (parseLines j i st lines).events k := by
  intro lines
  induction lines with
  | nil => intro i st h; exact h
  | cons line rest ih =>
    intro i st h
    exact ih _ _ (parseStep_lookup_inv (j i) st line h)

/-! ## Claims -/

/-- Claim C1 (code bug): the claim (and the parser's own documentation,
`YConfParser.hpp` lines 60-64) says a digit sequence without a `.` parses
as an Integer, but `parseAsInteger` attempts the conversion only when the
token *contains* a `.` (line 291), so `42` classifies as `NO_VAL`; the
float half of the claim does hold (`3.14` classifies `FLOAT`).  This
theorem evaluates the code at the failing input. -/
theorem C1_integer_gate_eval :
    (classifyValue "42".toList).type = Ytype.NO_VAL ∧
    parseAsInteger "42".toList = none ∧
    (parseLine "n: 42".toList).cfg.type = Ytype.NO_VAL ∧
    (classifyValue "3.14".toList).type = Ytype.FLOAT := by decide

/-- Claim C2 (code bug): the claim (and the header's own example, lines
113-125) says a line with a `None` value still pushes its frame so deeper
lines attach beneath it, but line 557 of `parseFile` skips any line whose
value classified `NO_VAL` *before* the stack logic runs.  The claim's own
document therefore yields an empty map (its integer values also classify
`NO_VAL` by the C1 bug), and even with parsable values the child of a
valueless parent gets path `b`, not `a.b`. -/
theorem C2_none_value_lines_dropped :
    (parseDocument junkZero (["a:", "  b: 1", "  c: 2"].map String.toList)).config = [] ∧
    (parseDocument junkZero (["a:", "  b: \"x\""].map String.toList)).config =
      [("b".toList,
        { type := Ytype.STRING, rawString := "\"x\"".toList, stringVal := [['x']],
          boolVal := [], floatVal := [], intVal := [] })] := by decide

/-- Claim C3 (code bug): on the claim's document the code yields an empty
map (every line's value classifies `NO_VAL`, see C1/C2); and on the same
document with parsable values the root-level sibling `d` ends up at path
`a.d`, not `d` — the rewind's `substr` count wraps around when the bottom
frame is popped, so the first path segment is never removed. -/
theorem C3_rewind_scenario_eval :
    (parseDocument junkZero (["a:", "  b:", "    c: 1", "d: 2"].map String.toList)).config = [] ∧
    (parseDocument junkZero
        (["a: \"r\"", "  b: \"s\"", "    c: \"t\"", "d: \"u\""].map String.toList)).config.map
        Prod.fst =
      ["a".toList, "a.b".toList, "a.b.c".toList, "a.d".toList] ∧
    lookupConfig (parseDocument junkZero
        (["a: \"r\"", "  b: \"s\"", "    c: \"t\"", "d: \"u\""].map String.toList)).config
        ("d".toList) = none := by decide

/-- Claim C4 (code bug): the claim says the rewind loop never reads the
top of an empty padding stack and the path-truncation subtraction never
underflows; on the two-line document below the loop pops the only frame,
then line 573 reads `paddingHistory.back()` of an empty vector, and line
570 computes `1 - 2` in `size_t`.  Both instrumentation flags latch. -/
theorem C4_rewind_out_of_bounds :
    (parseDocument junkZero (["a: \"x\"", "b: \"y\""].map String.toList)).ubEmptyBack = true ∧
    (parseDocument junkZero (["a: \"x\"", "b: \"y\""].map String.toList)).ubUnderflow = true := by
  decide

/-- Claim C5 counterexample: two accepted lines resolve to the dotted path
`p.a`; the final map holds the *first* line's value `"x"`, not the later
`"y"` the claim predicts — `std::unordered_map::insert` does not
overwrite. -/
theorem C5_counterexample :
    lookupConfig (parseDocument junkZero
        (["p: \"v\"", "  a: \"x\"", "  a: \"y\""].map String.toList)).config ("p.a".toList) =
      some { type := Ytype.STRING, rawString := "\"x\"".toList, stringVal := [['x']],
             boolVal := [], floatVal := [], intVal := [] } ∧
    lookupConfig (parseDocument junkZero
        (["p: \"v\"", "  a: \"x\"", "  a: \"y\""].map String.toList)).config ("p.a".toList) ≠
      some { type := Ytype.STRING, rawString := "\"y\"".toList, stringVal := [['y']],
             boolVal := [], floatVal := [], intVal := [] } := by decide

/-- Claim C5 as amended: duplicate dotted paths are silently *ignored* —
for every document and every path, the final map's value at that path is
the value of the earliest insertion at that path (first write wins):
looking up the map agrees with a first-match lookup over the chronological
sequence of attempted insertions. -/
theorem C5_first_write_wins (junk : Nat → Nat) (lines : List (List Char)) (k : List Char) :
    lookupConfig (parseDocument junk lines).config k =
      lookupConfig (parseDocument junk lines).events k :=
  parseLines_lookup_inv junk lines 0 initState (fun _ => rfl) k

/-- Claim C6 (code bug): on an array whose second element classifies to a
different type, the loop does stop and the result keeps the first
element's type (`STRING`), but the copy-out `switch` (lines 476-494)
dispatches on the *mismatching* element's type, so the accumulated string
elements are discarded (`stringVal = []`) and the boolean scratch vector
is copied instead — not the partial array the claim promises. -/
theorem C6_array_mismatch_eval :
    (classifyValue "[\"a\", TRUE]".toList).type = Ytype.STRING ∧
    (classifyValue "[\"a\", TRUE]".toList).stringVal = [] ∧
    (classifyValue "[\"a\", TRUE]".toList).boolVal = [true] := by decide

/-- Claim C7 counterexample: the line `" \tfoo: \"v\""` mixes a space and
a tab in its leading run (space first), yet `parseLine` does *not* reject
it — it parses name `foo` normally (only a warning is printed) and the
document produces a map entry for it. -/
theorem C7_counterexample :
    (parseLine " \tfoo: \"v\"".toList).name = "foo".toList ∧
    lookupConfig (parseDocument junkZero [" \tfoo: \"v\"".toList]).config ("foo".toList) =
      some { type := Ytype.STRING, rawString := "\"v\"".toList, stringVal := [['v']],
             boolVal := [], floatVal := [], intVal := [] } := by decide

/-- Claim C7 as amended: only one mixing order is rejected.  A line whose
remainder after stripping leading spaces and then leading tabs still
begins with a space (i.e. a space occurs after tabs in the leading run)
is rejected by `parseLine` — empty name, no entry — and the whole parse
step leaves the state (in particular the path stack) untouched.  A
space-then-tab run, by contrast, is only warned about and parses
normally (see `C7_counterexample`). -/
theorem C7_tab_then_space_rejected (line : List Char)
    (h : headOrNull (trimmLeadingTabs (trimmLeadingSpaces line)) = ' ') :
    (parseLine line).name = [] ∧
      ∀ (junk : Nat) (st : ParseState), parseStep junk st line = st := by
  have hnull : (Char.ofNat 0) ≠ ' ' := by decide
  have hline : line ≠ [] := by
    intro he; rw [he] at h; exact hnull h
  have htr : trimmLeadingTabs (trimmLeadingSpaces line) ≠ [] := by
    intro he; rw [he] at h; exact hnull h
  have hname : (parseLine line).name = [] := by
    simp only [parseLine]
    rw [if_neg hline, if_neg htr, if_pos h]
  refine ⟨hname, fun junk st => ?_⟩
  simp only [parseStep]
  rw [if_pos (Or.inl hname)]

/-- Witness for `C7_tab_then_space_rejected` at the concrete line
`"\t foo: 1"`. -/
theorem C7_tab_then_space_rejected_w :
    (parseLine "\t foo: 1".toList).name = [] ∧
      parseStep 0 initState ("\t foo: 1".toList) = initState :=
  ⟨(C7_tab_then_space_rejected _ (by decide)).1,
   (C7_tab_then_space_rejected _ (by decide)).2 0 initState⟩

/-- Claim C8 (confirmed): a token of length `> 2` whose first and last
characters are double quotes classifies as a String holding the token
with exactly one leading and one trailing quote removed (no escape
processing), and a token not of this shape never succeeds at the string
rule `parseAsString`. -/
theorem C8_string_rule (t : List Char) :
    (2 < t.length → headOrNull t = '"' → t.getLast? = some '"' →
      classifyValue t =
        { mkBase t with type := Ytype.STRING, stringVal := [(t.drop 1).dropLast] }) ∧
    (¬(2 < t.length ∧ headOrNull t = '"' ∧ t.getLast? = some '"') →
      parseAsString t = none) := by
  constructor
  · intro h1 h2 h3
    have hne : t ≠ [] := by
      intro he; rw [he] at h1; simp at h1
    have hps : parseAsString t = some ((t.drop 1).dropLast) := by
      unfold parseAsString; rw [if_pos h2, if_pos h1, if_pos h3]
    simp only [classifyValue]
    rw [if_neg hne, hps]
  · intro h
    unfold parseAsString
    split_ifs with h2 h1 h3
    · exact absurd ⟨h1, h2, h3⟩ h
    · rfl
    · rfl
    · rfl

/-- Witness for `C8_string_rule`: the quoted token `"ab"` is stripped to
`ab`, and the unquoted token `abc` fails the string rule. -/
theorem C8_string_rule_w :
    classifyValue "\"ab\"".toList =
      { mkBase "\"ab\"".toList with type := Ytype.STRING, stringVal := [['a', 'b']] } ∧
    parseAsString "abc".toList = none :=
  ⟨(C8_string_rule _).1 (by decide) (by decide) (by decide),
   (C8_string_rule _).2 (by decide)⟩

/-- Claim C9 (confirmed): a non-empty token that is not quote-wrapped and
not bracket-wrapped classifies Boolean true if it contains the substring
`TRUE` anywhere, else Boolean false if it contains `FALSE` anywhere —
substring match, not equality. -/
theorem C9_boolean_substring (t : List Char) (h0 : t ≠ [])
    (hq : ¬(headOrNull t = '"' ∧ t.getLast? = some '"'))
    (hb : ¬(headOrNull t = '[' ∧ t.getLast? = some ']')) :
    (hasSubstr t TRUEpat = true →
      classifyValue t = { mkBase t with type := Ytype.BOOLEAN, boolVal := [true] }) ∧
    (hasSubstr t TRUEpat = false → hasSubstr t FALSEpat = true →
      classifyValue t = { mkBase t with type := Ytype.BOOLEAN, boolVal := [false] }) := by
  have hps : parseAsString t = none := by
    unfold parseAsString
    split_ifs with h2 h1 h3
    · exact absurd ⟨h2, h3⟩ hq
    · rfl
    · rfl
    · rfl
  constructor
  · intro ht
    have hpb : parseAsBoolean t = some true := by
      unfold parseAsBoolean; rw [if_pos ht]
    simp only [classifyValue]
    rw [if_neg h0, hps, if_neg hb, hpb]
  · intro ht hf
    have hpb : parseAsBoolean t = some false := by
      simp [parseAsBoolean, ht, hf]
    simp only [classifyValue]
    rw [if_neg h0, hps, if_neg hb, hpb]

/-- Witness for `C9_boolean_substring`: `NOTTRUE` yields Boolean true and
`xFALSEx` yields Boolean false. -/
theorem C9_boolean_substring_w :
    classifyValue "NOTTRUE".toList =
      { mkBase "NOTTRUE".toList with type := Ytype.BOOLEAN, boolVal := [true] } ∧
    classifyValue "xFALSEx".toList =
      { mkBase "xFALSEx".toList with type := Ytype.BOOLEAN, boolVal := [false] } :=
  ⟨(C9_boolean_substring _ (by decide) (by decide) (by decide)).1 (by decide),
   (C9_boolean_substring _ (by decide) (by decide) (by decide)).2 (by decide) (by decide)⟩

/-- Claim C10 (confirmed): the parse is a deterministic function of the
line sequence — two parses of the same lines yield maps with identical
contents, even under different garbage values for the out-of-bounds
`back()` reads (the only source of nondeterminism in the model). -/
theorem C10_deterministic (junk1 junk2 : Nat → Nat) (lines : List (List Char)) :
    (parseDocument junk1 lines).config = (parseDocument junk2 lines).config := by
  unfold parseDocument
  rw [parseLines_junk_irrel junk1 junk2]
